import Mathlib

/-!
Verification of the DataWhiz tabular-analysis client against its specification.

The repository under scrutiny is the React/TypeScript front end of the DataWhiz
data-analysis platform.  The definitions below are a shallow embedding of the
client code (the components `DataCleaning`, `FileUpload`, `NaturalLanguageQuery`,
`RoleSpecificTasks`, the page `RoleAnalysis` and the service object `apiService`
in `utils/api.ts`).  The Python backend service is not part of the repository;
the few backend behaviours a claim depends on (the atomic cleaning pipeline, the
quality-score arithmetic) are modelled from the specification and are marked as
such in their doc comments.

JavaScript conventions used throughout the embedding:
* a possibly-absent object field is `Option`-typed;
* `a || b` on strings/fields is `jsGet`, which treats `none` and the empty
  string as falsy, as JavaScript does;
* an exception-free `fetch`/axios wrapper that resolves either to a parsed
  payload or to a failure message is `Except String`-valued.
-/

/-- JavaScript `a || b` for an optional string: `none` and `""` are falsy. -/
def jsGet (m : Option String) (dflt : String) : String :=
  match m with
  | some s => if s = "" then dflt else s
  | none => dflt

/-- Substring search on lists of characters: does `pat` occur inside the list? -/
def listContainsSub (pat : List Char) : List Char → Bool
  | [] => pat.isEmpty
  | c :: rest => pat.isPrefixOf (c :: rest) || listContainsSub pat rest

/-- JavaScript `hay.includes(pat)`. -/
def strIncludes (hay pat : String) : Bool :=
  listContainsSub pat.data hay.data

/-! ## Cleaning pipeline (claims C1, C7, C8)

Client side: `DataCleaning.handleApplySelected` in `src/unnamed/part_006`
(lines 400-480).  Backend side: the `/clean/:role` endpoint is not in the
repository; its behaviour is modelled from the specification. -/

/-- `operationMap` of `DataCleaning.handleApplySelected`: frontend action ids
to backend operation names, verbatim from the source. -/
def operationMap : List (String × String) :=
  [("remove-nulls", "remove_nulls"),
   ("drop-duplicates", "drop_duplicates"),
   ("impute", "impute_missing"),
   ("normalize", "normalize_data"),
   ("one-hot-encode", "one_hot_encode"),
   ("aggregate", "aggregate_data"),
   ("feature-engineering", "feature_engineering"),
   ("data-validation", "data_validation")]

/-- The frontend action ids offered by the `cleaningActions` cards. -/
def frontendActionIds : List String := operationMap.map Prod.fst

/-- The eight backend operation names the specification lists as supported. -/
def supportedOperations : List String :=
  ["remove_nulls", "drop_duplicates", "impute_missing", "normalize_data",
   "one_hot_encode", "aggregate_data", "feature_engineering", "data_validation"]

/-- `selectedActions.map(id => operationMap[id]).filter(Boolean)` from
`handleApplySelected`: translate the caller-ordered selection into backend
operation names, dropping ids with no translation. -/
def toBackendOps (selectedActions : List String) : List String :=
  selectedActions.filterMap (fun id => operationMap.lookup id)

/-- Modelled from the spec: the backend cleaning pipeline (the `/clean/:role`
endpoint is absent from the repository, which holds only the React client).
Operations run strictly in caller-supplied order, each operation's output being
the next operation's input; a failing operation aborts the run and surfaces its
own name.  `step` interprets one named operation on a dataset of type `α`,
returning `none` when the operation raises. -/
def applyOps {α : Type} (step : String → α → Option α) :
    List String → α → Except String α
  | [], d => Except.ok d
  | op :: rest, d =>
    match step op d with
    | some d2 => applyOps step rest d2
    | none => Except.error op

/-- The per-session state the specification assigns to the cleaning pipeline:
the working dataset and the ordered log of applied operation names. -/
structure SessionState (α : Type) where
  currentDataset : α
  cleaningHistory : List String

/-- Modelled from the spec: a `clean` call against the session store (backend,
absent from the repository).  On success it overwrites `currentDataset` and
appends the applied operation names to `cleaningHistory`; if any operation
raises, `currentDataset` keeps its pre-call value and the failing operation
name is surfaced to the caller. -/
def cleanCall {α : Type} (step : String → α → Option α) (s : SessionState α)
    (ops : List String) : SessionState α × Except String α :=
  match applyOps step ops s.currentDataset with
  | Except.ok d =>
    ({ currentDataset := d, cleaningHistory := s.cleaningHistory ++ ops },
     Except.ok d)
  | Except.error op => (s, Except.error op)

/-- The validation report the cleaning endpoint returns and the component
renders (`validationResults` block of `DataCleaning`). -/
structure ValidationReport where
  total_rows : Nat
  total_columns : Nat
  duplicates : Nat
  missing_values : List (String × Nat × ℚ)
  outliers : List (String × Nat × ℚ)
  inconsistencies : List String

/-- The JSON payload of a successful `/clean/:role` response, with the fields
`handleApplySelected` reads (`preview`, `validation_results`,
`ai_recommendations`, `rows`); all of them are read with a `|| fallback`. -/
structure CleanResult (ρ : Type) where
  preview : Option (List ρ)
  validation_results : Option ValidationReport
  ai_recommendations : Option (List String)
  rows : Option Nat

/-- The `DataCleaning` component state touched by `handleApplySelected`
(rows of the rendered tables have type `ρ`; pure display toggles such as
`showComparison` are omitted). -/
structure CleaningState (ρ : Type) where
  selectedActions : List String
  preview : List ρ
  originalData : List ρ
  cleanedData : List ρ
  validationResults : Option ValidationReport
  aiRecommendations : List String
  error : Option String
  isProcessing : Bool

/-- The `cleanedCount < originalCount * 0.8` test of `handleApplySelected`
(part_006 line 469): warn when more than 20 percent of the data was removed. -/
def dataRemovalWarning (originalCount cleanedCount : Nat) : Bool :=
  decide ((cleanedCount : ℚ) < (originalCount : ℚ) * 0.8)

/-- The warning text set by `handleApplySelected` when too much data was
removed (the percentage rendering with `toFixed` is abbreviated). -/
def warningMessage (originalCount cleanedCount : Nat) : String :=
  "Warning: Data cleaning removed " ++ toString (originalCount - cleanedCount)
    ++ " rows. Consider reviewing your cleaning operations."

/-- `DataCleaning.handleApplySelected` as a state transition.  `resp` is the
outcome of the `fetch` to `/clean/:role`: `Except.error msg` covers both a
rejected fetch and a non-ok response (the code throws and catches the message),
`Except.ok` carries the parsed JSON.  Note the React closure: `originalCount`
reads the `originalData` state captured at call time, not the value queued by
the `setOriginalData` call at the top of the handler. -/
def handleApplySelected {ρ : Type} (st : CleaningState ρ)
    (resp : Except String (CleanResult ρ)) : CleaningState ρ :=
  let origData := if st.preview.isEmpty then st.originalData else st.preview
  let st1 := { st with isProcessing := true, error := none,
                       originalData := origData }
  let operations := toBackendOps st.selectedActions
  if operations.isEmpty then
    { st1 with error := some "Please select at least one cleaning action.",
               isProcessing := false }
  else
    match resp with
    | Except.error msg => { st1 with error := some msg, isProcessing := false }
    | Except.ok result =>
      let cleanedCount := result.rows.getD 0
      let originalCount := st.originalData.length
      { st1 with
        cleanedData := result.preview.getD [],
        validationResults := result.validation_results,
        aiRecommendations := result.ai_recommendations.getD [],
        error := if dataRemovalWarning originalCount cleanedCount
                 then some (warningMessage originalCount cleanedCount)
                 else none,
        selectedActions := [],
        isProcessing := false }

/-! ## Quality assessment (claim C5)

`src/unnamed/part_004` only declares the `QualityAssessment` response shape
(`overall_score`, `grade`, the six `quality_scores`) and renders it; the
computation runs in the backend service, which is not in the repository. -/

/-- The six dimension scores of a `QualityAssessment`
(the `quality_scores` field of part_004). -/
structure QualityScores where
  completeness : ℚ
  consistency : ℚ
  accuracy : ℚ
  uniqueness : ℚ
  validity : ℚ
  timeliness : ℚ

/-- Modelled from the spec: the backend quality-score computation is absent
from the repository; the specification fixes `overallScore` as the arithmetic
mean of the six dimension scores. -/
def overall_score (q : QualityScores) : ℚ :=
  (q.completeness + q.consistency + q.accuracy + q.uniqueness + q.validity
    + q.timeliness) / 6

/-- Modelled from the spec: the backend letter-grade computation is absent from
the repository; the specification fixes the thresholds A at 90, B at 80, C at
70, D at 60, else F. -/
def gradeOf (score : ℚ) : String :=
  if score ≥ 90 then "A"
  else if score ≥ 80 then "B"
  else if score ≥ 70 then "C"
  else if score ≥ 60 then "D"
  else "F"

/-! ## Role-specific analysis tasks (claim C6)

`roleTasksMap` of `RoleSpecificTasks.tsx`, task ids verbatim. -/

/-- `roleTasksMap` keyed by frontend role id; each entry lists the task ids in
declaration order. -/
def roleTasksMap : List (String × List String) :=
  [("business-analyst",
    ["kpi", "customer_segmentation", "revenue_analysis", "performance_metrics"]),
   ("research-eda",
    ["correlation_matrix", "summary_stats", "outliers", "hypothesis_testing"]),
   ("marketing",
    ["roi_analysis", "rfm_analysis", "engagement_funnel", "persona_clusters"]),
   ("finance",
    ["forecasting", "risk_heatmap", "roi_irr_npv", "volatility"]),
   ("predictive-modeling",
    ["automl", "regression_classification", "model_evaluation", "drift_monitor"]),
   ("healthcare",
    ["cohort_survival", "prevalence_graph", "patient_clustering", "hospital_stats"]),
   ("ecommerce",
    ["market_basket", "trends", "order_funnel", "inventory_forecast"]),
   ("general",
    ["auto_eda", "correlation", "gpt_insights", "auto_queries"])]

/-- `roleTasksMap[role.id] || roleTasksMap.general` from `RoleSpecificTasks`. -/
def tasksForRole (roleId : String) : List String :=
  (roleTasksMap.lookup roleId).getD ((roleTasksMap.lookup "general").getD [])

/-! ## Natural-language query engine, client side (claims C2, C3, C4)

`NaturalLanguageQuery.tsx` and `apiService.naturalLanguageQuery` of
`utils/api.ts`; the AI-insight log of `RoleAnalysis.tsx`. -/

/-- The structured payload `apiService.naturalLanguageQuery` hands to the
component: the backend JSON, of which the component reads `type` and
`message` (`data`/`result` are carried through opaquely and omitted here). -/
structure NLQResult where
  rtype : Option String
  message : Option String
deriving DecidableEq

/-- `result.message && result.message.includes(pat)` from
`calculateConfidence` (a `none` or empty message is falsy, and an empty string
never contains a nonempty pattern, so both collapse to `false`). -/
def msgIncludes (r : NLQResult) (pat : String) : Bool :=
  match r.message with
  | some m => strIncludes m pat
  | none => false

/-- `calculateConfidence` of `NaturalLanguageQuery.tsx` (lines 191-200),
verbatim: base 80, then the three special cases in source order. -/
def calculateConfidence (r : NLQResult) : Nat :=
  if r.rtype = some "error" then 0
  else if msgIncludes r "No suitable columns" then 30
  else if msgIncludes r "insufficient data" then 40
  else 80

/-- The `switch (result.type)` of `generateAnswerFromResult`, per-intent
answer templates verbatim. -/
def typeAnswer : Option String → String
  | some "summary" =>
    "Data summary analysis completed. Check the detailed statistics below."
  | some "trend" =>
    "Trend analysis completed. Check the detailed trend information below."
  | some "distribution" =>
    "Distribution analysis completed. Check the detailed distribution statistics below."
  | some "comparison" =>
    "Comparison analysis completed. Check the detailed comparison results below."
  | some "correlation" =>
    "Correlation analysis completed. Check the detailed correlation matrix below."
  | some "outlier" =>
    "Outlier detection completed. Check the detailed outlier information below."
  | some "percentage" =>
    "Percentage distribution analysis completed. Check the detailed breakdown below."
  | some "clustering" =>
    "Clustering analysis completed. Check the detailed cluster information below."
  | some "data_types" =>
    "Data types analysis completed. Check the detailed column information below."
  | some "forecasting" =>
    "Forecasting analysis completed. Check the detailed forecast below."
  | _ => "Analysis completed successfully."

/-- `generateAnswerFromResult` of `NaturalLanguageQuery.tsx`: the message when
present, otherwise the per-type template. -/
def generateAnswerFromResult (r : NLQResult) : String :=
  jsGet r.message (typeAnswer r.rtype)

/-- The `NLQResponse` interface of `NaturalLanguageQuery.tsx` (the
`visualization`/`data` fields are always `undefined`/opaque and omitted). -/
structure NLQResponse where
  success : Bool
  query : String
  answer : String
  confidence : Nat
  intent : String
deriving DecidableEq

/-- The component state touched by `handleSubmit`. -/
structure NLQState where
  response : Option NLQResponse
  error : Option String
  queryHistory : List NLQResponse
deriving DecidableEq

/-- The component state before any query. -/
def initialNLQState : NLQState :=
  { response := none, error := none, queryHistory := [] }

/-- `apiService.naturalLanguageQuery` of `utils/api.ts` (lines 393-407): the
axios call either resolves with the backend JSON or rejects, in which case the
method catches and returns a plain object with type `error` and the response
detail (or a fixed fallback text).  It never raises to its caller. -/
def naturalLanguageQuery (downstream : Except (Option String) NLQResult) :
    NLQResult :=
  match downstream with
  | Except.ok r => r
  | Except.error detail =>
    { rtype := some "error",
      message :=
        some (jsGet detail "Failed to process natural language query.") }

/-- The `NLQResponse` object built by the success path of `handleSubmit`. -/
def nlqResponseOf (query : String) (result : NLQResult) : NLQResponse :=
  { success := true,
    query := query,
    answer := jsGet result.message (generateAnswerFromResult result),
    confidence := calculateConfidence result,
    intent := jsGet result.rtype "analysis" }

/-- `NaturalLanguageQuery.handleSubmit` (lines 94-156) as a state transition on
the already-resolved API result.  On `type === 'error'` it sets the error
message and returns early; otherwise it builds an `NLQResponse`, stores it and
prepends it to the history, keeping the five most recent entries.  (The
`typeof result !== 'object'` guard cannot fire in the typed embedding.) -/
def handleSubmit (st : NLQState) (query : String) (result : NLQResult) :
    NLQState :=
  let st0 := { st with error := none }
  if result.rtype = some "error" then
    { st0 with error := some (jsGet result.message "Failed to process query") }
  else
    let resp := nlqResponseOf query result
    { st0 with response := some resp,
               queryHistory := resp :: st.queryHistory.take 4 }

/-- One entry of the `insights` log of `RoleAnalysis.tsx`
(`{question, response, timestamp}`). -/
structure Insight where
  question : String
  response : String
  timestamp : Nat
deriving DecidableEq

/-- The possible outcomes of one `handleAIInsight` call: the clean-intent
branch (`apiService.aiClean`, which raises since no such method exists on
`apiService` - its outcome always lands in `failure`), the insight branch
(`apiService.getAIInsight`, which never raises), or a thrown exception caught
by the handler. -/
inductive AIOutcome where
  | cleaned (summary : Option String) (message : Option String)
  | insightBranch (insightText : Option String) (message : Option String)
  | failure (msg : String)
deriving DecidableEq

/-- The entry a given outcome contributes to the insights log, response texts
and fallbacks verbatim from `handleAIInsight`. -/
def aiInsightEntry (question : String) (t : Nat) (o : AIOutcome) : Insight :=
  match o with
  | AIOutcome.cleaned s m =>
    { question := question,
      response := jsGet s (jsGet m "Data cleaned successfully."),
      timestamp := t }
  | AIOutcome.insightBranch i m =>
    { question := question,
      response := jsGet i (jsGet m "Analysis completed successfully."),
      timestamp := t }
  | AIOutcome.failure msg =>
    { question := question, response := msg, timestamp := t }

/-- `RoleAnalysis.handleAIInsight` (lines 163-197): every branch, the catch
branch included, appends exactly one entry to the `insights` state. -/
def handleAIInsight (insights : List Insight) (question : String) (t : Nat)
    (o : AIOutcome) : List Insight :=
  match o with
  | AIOutcome.cleaned s m =>
    insights ++ [{ question := question,
                   response := jsGet s (jsGet m "Data cleaned successfully."),
                   timestamp := t }]
  | AIOutcome.insightBranch i m =>
    insights ++ [{ question := question,
                   response := jsGet i (jsGet m "Analysis completed successfully."),
                   timestamp := t }]
  | AIOutcome.failure msg =>
    insights ++ [{ question := question, response := msg, timestamp := t }]

/-- A sequence of `handleAIInsight` calls, each given as
(question, timestamp, outcome), run left to right. -/
def runAIInsightCalls (insights : List Insight)
    (calls : List (String × Nat × AIOutcome)) : List Insight :=
  calls.foldl (fun acc c => handleAIInsight acc c.1 c.2.1 c.2.2) insights

/-! ## Analysis dispatch request shape (claim C9)

`RoleAnalysis.handleAnalysis` (lines 136-161) and `apiService.runAnalysis`
(lines 237-249). -/

/-- `API_BASE_URL` of `utils/api.ts`. -/
def API_BASE_URL : String := "http://localhost:8000/api"

/-- The request an `apiService` method issues: URL, bearer token and HTTP
method. -/
structure ApiRequest where
  url : String
  bearer : String
  httpMethod : String
deriving DecidableEq

/-- `apiService.runAnalysis(sessionToken, analysisId, role)`: POST to
`/analyze/:role/analyze/:analysisId` with `Bearer sessionToken`.  (The TS
declares `analysisId: number`, but its caller passes a task-id string, which
string interpolation accepts either way; the embedding uses `String`.) -/
def runAnalysis (sessionToken analysisId role : String) : ApiRequest :=
  { url := API_BASE_URL ++ "/analyze/" ++ role ++ "/analyze/" ++ analysisId,
    bearer := sessionToken,
    httpMethod := "POST" }

/-- The `roleMapping` object of `RoleAnalysis.handleAnalysis`, verbatim. -/
def roleMappingRA : List (String × String) :=
  [("business-analyst", "business"),
   ("research-eda", "research"),
   ("marketing", "marketing"),
   ("finance", "financial"),
   ("predictive-modeling", "predictive"),
   ("healthcare", "healthcare"),
   ("ecommerce", "ecommerce"),
   ("general", "general")]

/-- `RoleAnalysis.handleAnalysis(task)` with session and role present (the
handler returns without a request otherwise): it maps the frontend role id to
the backend role name and calls
`apiService.runAnalysis(backendRole, task, sessionId)` - in that argument
order. -/
def handleAnalysis (roleId task sessionId : String) : ApiRequest :=
  runAnalysis ((roleMappingRA.lookup roleId).getD roleId) task sessionId

/-! ## Full preview (claim C10)

`FileUpload.handleFullPreview` of `src/unnamed/part_006` (lines 66-96) and the
method set of `apiService` in `utils/api.ts`. -/

/-- Every method defined on the `apiService` object literal of `utils/api.ts`,
in declaration order. -/
def apiServiceMethods : List String :=
  ["healthCheck", "register", "login", "logout", "validateSession",
   "getProfile", "updateProfile", "adminGetUsers", "adminGetUserDetails",
   "adminUpdateUserRole", "adminToggleUserStatus", "adminDeleteUser",
   "adminGetStats", "adminGetErrors", "adminGetActions", "uploadFile",
   "runAnalysis", "getAnalyses", "getAnalysisResult", "downloadReport",
   "generateReports", "businessAnalysisUpload", "getBusinessAnalyses",
   "getBusinessAnalysisDetails", "cleanData", "getAIInsight", "previewData",
   "downloadData", "getAvailableRoles", "naturalLanguageQuery",
   "assessDataQuality", "generateDecisionIntelligence"]

/-- The `FileUpload` component state touched by `handleFullPreview`
(rows have type `ρ`; `preview` is the stored 5-row preview prop). -/
structure FullPreviewState (ρ : Type) where
  sessionId : Option String
  role : Option String
  preview : Option (List ρ)
  fullData : List ρ
  showFullPreview : Bool
  isLoadingFullData : Bool
  alertMsg : Option String

/-- `FileUpload.handleFullPreview` as a state transition.  Calling
`apiService.fullPreviewData` is modelled as JavaScript method dispatch: the
try block runs (as `onSuccess`) only if a method of that name exists on
`apiService`; otherwise the call raises a TypeError and the catch branch
alerts and falls back to the stored preview. -/
def handleFullPreview {ρ : Type} (st : FullPreviewState ρ)
    (onSuccess : FullPreviewState ρ → FullPreviewState ρ) :
    FullPreviewState ρ :=
  if st.sessionId.isNone || st.role.isNone then
    { st with alertMsg := some "No session ID or role available" }
  else
    let st1 := { st with isLoadingFullData := true }
    if "fullPreviewData" ∈ apiServiceMethods then
      onSuccess st1
    else
      { st1 with
        alertMsg := some "Error loading full preview data. Please try again.",
        fullData := st1.preview.getD [],
        showFullPreview := true,
        isLoadingFullData := false }

/-! ## Concrete sample values used by the witness theorems -/

/-- A sample operation interpreter: `impute_missing` raises, everything else
succeeds. -/
def stepSample : String → Nat → Option Nat :=
  fun op d => if op = "impute_missing" then none else some (d + 1)

/-- A sample session. -/
def sessionSample : SessionState Nat :=
  { currentDataset := 0, cleaningHistory := [] }

/-- A sample `DataCleaning` state with one action selected. -/
def cleaningStateSample : CleaningState Nat :=
  { selectedActions := ["remove-nulls"], preview := [1, 2, 3],
    originalData := [1, 2, 3], cleanedData := [9], validationResults := none,
    aiRecommendations := [], error := none, isProcessing := false }

/-- A sample `DataCleaning` state whose original data has ten rows. -/
def cleaningStateTen : CleaningState Nat :=
  { selectedActions := ["drop-duplicates"], preview := [1, 2, 3, 4, 5],
    originalData := [1, 2, 3, 4, 5, 6, 7, 8, 9, 10], cleanedData := [],
    validationResults := none, aiRecommendations := [], error := none,
    isProcessing := false }

/-- A sample successful clean response reporting seven remaining rows. -/
def cleanResultSample : CleanResult Nat :=
  { preview := some [1, 2], validation_results := none,
    ai_recommendations := some [], rows := some 7 }

/-- A sample `FileUpload` state with session, role and stored preview. -/
def fullPreviewStateSample : FullPreviewState Nat :=
  { sessionId := some "session-1", role := some "business",
    preview := some [1, 2, 3, 4, 5], fullData := [], showFullPreview := false,
    isLoadingFullData := false, alertMsg := none }

/-! ## Helper lemmas -/

/-- An association-list key that occurs among the first components is found by
`List.lookup`. -/
theorem lookup_isSome_of_mem_keys {α β : Type} [BEq α] [LawfulBEq α]
    (l : List (α × β)) (a : α) (h : a ∈ l.map Prod.fst) :
    (l.lookup a).isSome := by
  induction l with
  | nil => simp at h
  | cons p rest ih =>
    obtain ⟨k, b⟩ := p
    by_cases hk : (a == k) = true
    · simp [List.lookup, hk]
    · have hmem : a ∈ rest.map Prod.fst := by
        simp only [List.map_cons, List.mem_cons] at h
        rcases h with h | h
        · exact absurd (by simp [h]) hk
        · exact h
      simpa [List.lookup, hk] using ih hmem

/-- A successful `List.lookup` exhibits a member of the association list. -/
theorem mem_of_lookup_eq_some {α β : Type} [BEq α] [LawfulBEq α]
    {l : List (α × β)} {a : α} {b : β} (h : l.lookup a = some b) :
    (a, b) ∈ l := by
  induction l with
  | nil => simp [List.lookup] at h
  | cons p rest ih =>
    obtain ⟨k, c⟩ := p
    by_cases hk : (a == k) = true
    · have ha : a = k := eq_of_beq hk
      have hb : c = b := by simpa [List.lookup, hk] using h
      subst ha; subst hb
      exact List.mem_cons_self _ _
    · exact List.mem_cons_of_mem _ (ih (by simpa [List.lookup, hk] using h))

/-- The pipeline fold is compositional: running a concatenated operation list
feeds the output of the first segment into the second. -/
theorem applyOps_append {α : Type} (step : String → α → Option α)
    (l1 l2 : List String) (d : α) :
    applyOps step (l1 ++ l2) d =
      Except.bind (applyOps step l1 d) (applyOps step l2) := by
  induction l1 generalizing d with
  | nil => simp [applyOps, Except.bind]
  | cons op rest ih =>
    simp only [List.cons_append, applyOps]
    cases step op d with
    | some d2 => simpa using ih d2
    | none => simp [Except.bind]

/-- Every branch of `handleAIInsight` appends the entry of its outcome. -/
theorem handleAIInsight_eq_append (insights : List Insight) (q : String)
    (t : Nat) (o : AIOutcome) :
    handleAIInsight insights q t o = insights ++ [aiInsightEntry q t o] := by
  cases o <;> rfl

/-- A nonempty translated operation list is not `isEmpty`. -/
theorem toBackendOps_isEmpty_false {sel : List String}
    (hsel : toBackendOps sel ≠ []) : (toBackendOps sel).isEmpty = false := by
  cases hh : toBackendOps sel with
  | nil => exact absurd hh hsel
  | cons a l => rfl

/-! ## Claim theorems -/

/-- C6: every analysis role exposes exactly 4 fixed task ids, and the
business-analyst role's tasks are exactly kpi, customer_segmentation,
revenue_analysis and performance_metrics. -/
theorem role_tasks_exactly_four (r : String) :
    (tasksForRole r).length = 4 ∧
    tasksForRole "business-analyst" =
      ["kpi", "customer_segmentation", "revenue_analysis",
       "performance_metrics"] := by
  constructor
  · have hall : ∀ p ∈ roleTasksMap, (Prod.snd p).length = 4 := by decide
    cases hh : roleTasksMap.lookup r with
    | none =>
      simp only [tasksForRole, hh, Option.getD_none]
      decide
    | some ts =>
      have h4 := hall _ (mem_of_lookup_eq_some hh)
      simp [tasksForRole, hh, h4]
  · decide

/-- C9: `handleAnalysis` calls `apiService.runAnalysis(backendRole, task,
sessionId)` against the declared parameter order (sessionToken, analysisId,
role), so the request always goes to
`/api/analyze/SESSIONID/analyze/TASK` with the backend role name as the
bearer token. -/
theorem handleAnalysis_request (roleId task sessionId : String) :
    handleAnalysis roleId task sessionId =
      { url := API_BASE_URL ++ "/analyze/" ++ sessionId ++ "/analyze/" ++ task,
        bearer := (roleMappingRA.lookup roleId).getD roleId,
        httpMethod := "POST" } := rfl

/-- C10: `apiService` defines no `fullPreviewData` method, so with a session
id and role present `handleFullPreview` always lands in its catch branch and
falls back to showing the stored 5-row preview, whatever the success
continuation would have done. -/
theorem full_preview_falls_back {ρ : Type} (st : FullPreviewState ρ)
    (onSuccess : FullPreviewState ρ → FullPreviewState ρ)
    (hs : st.sessionId.isSome = true) (hr : st.role.isSome = true) :
    "fullPreviewData" ∉ apiServiceMethods ∧
    (handleFullPreview st onSuccess).fullData = st.preview.getD [] ∧
    (handleFullPreview st onSuccess).showFullPreview = true ∧
    (handleFullPreview st onSuccess).alertMsg =
      some "Error loading full preview data. Please try again." := by
  have hmem : "fullPreviewData" ∉ apiServiceMethods := by decide
  obtain ⟨x, hx⟩ := Option.isSome_iff_exists.mp hs
  obtain ⟨y, hy⟩ := Option.isSome_iff_exists.mp hr
  refine ⟨hmem, ?_, ?_, ?_⟩ <;>
    simp [handleFullPreview, hx, hy, hmem]

/-- C10 witness: at a concrete state the fallback state is reached. -/
theorem full_preview_falls_back_witness :
    fullPreviewStateSample.sessionId.isSome = true ∧
    fullPreviewStateSample.role.isSome = true ∧
    ("fullPreviewData" ∉ apiServiceMethods ∧
     (handleFullPreview fullPreviewStateSample id).fullData =
       fullPreviewStateSample.preview.getD [] ∧
     (handleFullPreview fullPreviewStateSample id).showFullPreview = true ∧
     (handleFullPreview fullPreviewStateSample id).alertMsg =
       some "Error loading full preview data. Please try again.") :=
  ⟨by decide, by decide,
   full_preview_falls_back fullPreviewStateSample id (by decide) (by decide)⟩

/-- C2 counterexample: `calculateConfidence` also produces the value 40 (for a
result whose message mentions insufficient data), which is none of 80, 30 or
0, so 80/30/0 are not the only confidence values. -/
theorem calculateConfidence_forty :
    calculateConfidence
      { rtype := some "summary",
        message := some "Analysis skipped: insufficient data in columns" } = 40 ∧
    ¬ (40 = 80 ∨ 40 = 30 ∨ 40 = 0) :=
  ⟨by decide, by decide⟩

/-- C2 (amended): the confidence is 80 by default, 30 when the message
mentions that no suitable columns were found, 40 when the message mentions
insufficient data (and not the former), and 0 exactly when the result type is
the error type; the checks apply in that order of precedence. -/
theorem calculateConfidence_characterization (r : NLQResult) :
    (calculateConfidence r = 0 ↔ r.rtype = some "error") ∧
    (calculateConfidence r = 30 ↔
      r.rtype ≠ some "error" ∧ msgIncludes r "No suitable columns" = true) ∧
    (calculateConfidence r = 40 ↔
      r.rtype ≠ some "error" ∧ msgIncludes r "No suitable columns" = false ∧
        msgIncludes r "insufficient data" = true) ∧
    (calculateConfidence r = 80 ↔
      r.rtype ≠ some "error" ∧ msgIncludes r "No suitable columns" = false ∧
        msgIncludes r "insufficient data" = false) := by
  unfold calculateConfidence
  split_ifs with h1 h2 h3 <;> simp_all

/-- C5: the overall quality score is the arithmetic mean of the six dimension
scores, and the letter grade is A from 90, B from 80, C from 70, D from 60 and
F below (each band characterized exactly). -/
theorem quality_overall_mean_and_grade (q : QualityScores) (s : ℚ) :
    6 * overall_score q =
      q.completeness + q.consistency + q.accuracy + q.uniqueness
        + q.validity + q.timeliness ∧
    (gradeOf s = "A" ↔ 90 ≤ s) ∧
    (gradeOf s = "B" ↔ 80 ≤ s ∧ s < 90) ∧
    (gradeOf s = "C" ↔ 70 ≤ s ∧ s < 80) ∧
    (gradeOf s = "D" ↔ 60 ≤ s ∧ s < 70) ∧
    (gradeOf s = "F" ↔ s < 60) := by
  refine ⟨by rw [overall_score]; ring, ?_, ?_, ?_, ?_, ?_⟩ <;>
      unfold gradeOf <;> split_ifs with h1 h2 h3 h4 <;>
    first
      | exact iff_of_true rfl (by constructor <;> linarith)
      | exact iff_of_true rfl (by linarith)
      | exact iff_of_false (by decide) (by rintro ⟨hP1, hP2⟩; linarith)
      | exact iff_of_false (by decide) (by intro hP; linarith)

/-- C7: a clean call translates the caller-ordered selection action by action
into the eight supported backend operation names (same order, each name drawn
from the supported set), and the modelled backend pipeline applies operation
lists sequentially, feeding each output into the next operation. -/
theorem clean_ops_supported_in_order {α : Type} (sel : List String)
    (h : ∀ a ∈ sel, a ∈ frontendActionIds)
    (step : String → α → Option α) (l1 l2 : List String) (d : α) :
    (∀ op ∈ toBackendOps sel, op ∈ supportedOperations) ∧
    toBackendOps sel = sel.map (fun a => (operationMap.lookup a).getD a) ∧
    applyOps step (l1 ++ l2) d =
      Except.bind (applyOps step l1 d) (applyOps step l2) := by
  refine ⟨?_, ?_, applyOps_append step l1 l2 d⟩
  · intro op hop
    rw [toBackendOps, List.mem_filterMap] at hop
    obtain ⟨a, _, hlk⟩ := hop
    have hval : ∀ p ∈ operationMap, Prod.snd p ∈ supportedOperations := by
      decide
    exact hval _ (mem_of_lookup_eq_some hlk)
  · induction sel with
    | nil => rfl
    | cons a rest ih =>
      have ha : a ∈ frontendActionIds := h a (List.mem_cons_self a rest)
      obtain ⟨b, hb⟩ := Option.isSome_iff_exists.mp
        (lookup_isSome_of_mem_keys operationMap a ha)
      have ih2 := ih (fun x hx => h x (List.mem_cons_of_mem a hx))
      simp only [toBackendOps, List.filterMap_cons, hb, List.map_cons,
        Option.getD_some] at ih2 ⊢
      rw [ih2]

/-- C7 witness: a concrete two-action selection, also exercising the pipeline
sequencing at a concrete operation list. -/
theorem clean_ops_supported_in_order_witness :
    (∀ a ∈ ["data-validation", "remove-nulls"], a ∈ frontendActionIds) ∧
    ((∀ op ∈ toBackendOps ["data-validation", "remove-nulls"],
        op ∈ supportedOperations) ∧
     toBackendOps ["data-validation", "remove-nulls"] =
       (["data-validation", "remove-nulls"]).map
         (fun a => (operationMap.lookup a).getD a) ∧
     applyOps stepSample (["remove_nulls"] ++ ["drop_duplicates"]) 0 =
       Except.bind (applyOps stepSample ["remove_nulls"] 0)
         (applyOps stepSample ["drop_duplicates"])) :=
  ⟨by decide,
   clean_ops_supported_in_order ["data-validation", "remove-nulls"]
     (by decide) stepSample ["remove_nulls"] ["drop_duplicates"] 0⟩

/-- C1: the cleaning pipeline is atomic.  Backend (modelled from the spec):
when any operation fails, the clean call leaves the session untouched and
surfaces the failing operation name.  Client (`handleApplySelected`): on a
failed call the displayed preview and cleaned-data state keep their pre-call
values and the failure message is surfaced in the error state. -/
theorem clean_pipeline_atomic {α ρ : Type} (step : String → α → Option α)
    (s : SessionState α) (ops : List String) (opName : String)
    (hfail : applyOps step ops s.currentDataset = Except.error opName)
    (st : CleaningState ρ) (msg : String)
    (hsel : toBackendOps st.selectedActions ≠ []) :
    cleanCall step s ops = (s, Except.error opName) ∧
    (handleApplySelected st (Except.error msg)).cleanedData = st.cleanedData ∧
    (handleApplySelected st (Except.error msg)).preview = st.preview ∧
    (handleApplySelected st (Except.error msg)).error = some msg := by
  have hne := toBackendOps_isEmpty_false hsel
  refine ⟨?_, ?_, ?_, ?_⟩ <;>
    simp [cleanCall, hfail, handleApplySelected, hne]

/-- C1 witness: a pipeline whose second operation fails, and a client state
receiving a failed response. -/
theorem clean_pipeline_atomic_witness :
    applyOps stepSample ["remove_nulls", "impute_missing"]
        sessionSample.currentDataset = Except.error "impute_missing" ∧
    toBackendOps cleaningStateSample.selectedActions ≠ [] ∧
    (cleanCall stepSample sessionSample ["remove_nulls", "impute_missing"] =
       (sessionSample, Except.error "impute_missing") ∧
     (handleApplySelected cleaningStateSample
        (Except.error "Cleaning failed: Internal Server Error")).cleanedData =
       cleaningStateSample.cleanedData ∧
     (handleApplySelected cleaningStateSample
        (Except.error "Cleaning failed: Internal Server Error")).preview =
       cleaningStateSample.preview ∧
     (handleApplySelected cleaningStateSample
        (Except.error "Cleaning failed: Internal Server Error")).error =
       some "Cleaning failed: Internal Server Error") :=
  ⟨by rfl, by decide,
   clean_pipeline_atomic stepSample sessionSample
     ["remove_nulls", "impute_missing"] "impute_missing" (by rfl)
     cleaningStateSample "Cleaning failed: Internal Server Error" (by decide)⟩

/-- C8: after a successful clean call (with at least one operation selected),
the data-removal warning is present exactly when the cleaned row count is
below 0.8 times the original row count, which is exactly when more than 20
percent of the original rows were removed. -/
theorem data_removal_warning_iff {ρ : Type} (st : CleaningState ρ)
    (result : CleanResult ρ) (hsel : toBackendOps st.selectedActions ≠ []) :
    ((handleApplySelected st (Except.ok result)).error.isSome = true ↔
      ((st.originalData.length : ℚ) - ((result.rows.getD 0 : Nat) : ℚ) >
        0.2 * (st.originalData.length : ℚ))) ∧
    (dataRemovalWarning st.originalData.length (result.rows.getD 0) = true ↔
      (((result.rows.getD 0 : Nat) : ℚ) <
        0.8 * (st.originalData.length : ℚ))) := by
  have hne := toBackendOps_isEmpty_false hsel
  have hdw : dataRemovalWarning st.originalData.length (result.rows.getD 0)
      = true ↔
      (((result.rows.getD 0 : Nat) : ℚ) <
        0.8 * (st.originalData.length : ℚ)) := by
    rw [dataRemovalWarning, decide_eq_true_iff]
    constructor <;> intro <;> linarith
  refine ⟨?_, hdw⟩
  have herr : (handleApplySelected st (Except.ok result)).error =
      (if dataRemovalWarning st.originalData.length (result.rows.getD 0)
       then some (warningMessage st.originalData.length (result.rows.getD 0))
       else none) := by
    simp [handleApplySelected, hne]
  rw [herr]
  by_cases hw : dataRemovalWarning st.originalData.length (result.rows.getD 0)
      = true
  · rw [if_pos hw]
    simp only [Option.isSome_some, true_iff]
    have hlt := hdw.mp hw
    linarith
  · rw [if_neg hw]
    simp only [Option.isSome_none]
    constructor
    · intro hf; exact absurd hf Bool.false_ne_true
    · intro hgt; exact (hw (hdw.mpr (by linarith))).elim

/-- C8 witness: ten original rows, seven remaining (30 percent removed), so
the warning fires on both characterizations. -/
theorem data_removal_warning_iff_witness :
    toBackendOps cleaningStateTen.selectedActions ≠ [] ∧
    (((handleApplySelected cleaningStateTen
         (Except.ok cleanResultSample)).error.isSome = true ↔
       ((cleaningStateTen.originalData.length : ℚ) -
           ((cleanResultSample.rows.getD 0 : Nat) : ℚ) >
         0.2 * (cleaningStateTen.originalData.length : ℚ))) ∧
     (dataRemovalWarning cleaningStateTen.originalData.length
         (cleanResultSample.rows.getD 0) = true ↔
       (((cleanResultSample.rows.getD 0 : Nat) : ℚ) <
         0.8 * (cleaningStateTen.originalData.length : ℚ)))) :=
  ⟨by decide,
   data_removal_warning_iff cleaningStateTen cleanResultSample (by decide)⟩

/-- C3 counterexample: when the downstream call fails, `handleSubmit` sets the
bare error-message state and returns early, producing no `NLQResponse` at all
(so in particular none with intent error and confidence 0). -/
theorem nlq_failure_no_error_response :
    (handleSubmit initialNLQState "show trends"
        (naturalLanguageQuery (Except.error (some "Session not found")))).response
      = none ∧
    (handleSubmit initialNLQState "show trends"
        (naturalLanguageQuery (Except.error (some "Session not found")))).error
      = some "Session not found" ∧
    (handleSubmit initialNLQState "show trends"
        (naturalLanguageQuery (Except.error (some "Session not found")))).queryHistory
      = [] :=
  ⟨by decide, by decide, by decide⟩

/-- C3 (amended): a downstream failure is returned by
`apiService.naturalLanguageQuery` to its caller as a plain result object with
type error and the failure message (never a raised exception); the component
then surfaces it by setting the error-message state, leaving the stored
response and history unchanged and building no `NLQResponse`. -/
theorem nlq_failure_surfaced (st : NLQState) (q : String) (detail : String)
    (hd : detail ≠ "") :
    naturalLanguageQuery (Except.error (some detail)) =
      { rtype := some "error", message := some detail } ∧
    (handleSubmit st q (naturalLanguageQuery
        (Except.error (some detail)))).error = some detail ∧
    (handleSubmit st q (naturalLanguageQuery
        (Except.error (some detail)))).response = st.response ∧
    (handleSubmit st q (naturalLanguageQuery
        (Except.error (some detail)))).queryHistory = st.queryHistory := by
  have h1 : naturalLanguageQuery (Except.error (some detail)) =
      { rtype := some "error", message := some detail } := by
    simp [naturalLanguageQuery, jsGet, hd]
  refine ⟨h1, ?_, ?_, ?_⟩ <;> rw [h1] <;> simp [handleSubmit, jsGet, hd]

/-- C3 witness: a concrete failing call. -/
theorem nlq_failure_surfaced_witness :
    ("Session expired" ≠ "") ∧
    (naturalLanguageQuery (Except.error (some "Session expired")) =
       { rtype := some "error", message := some "Session expired" } ∧
     (handleSubmit initialNLQState "compare columns" (naturalLanguageQuery
         (Except.error (some "Session expired")))).error =
       some "Session expired" ∧
     (handleSubmit initialNLQState "compare columns" (naturalLanguageQuery
         (Except.error (some "Session expired")))).response =
       initialNLQState.response ∧
     (handleSubmit initialNLQState "compare columns" (naturalLanguageQuery
         (Except.error (some "Session expired")))).queryHistory =
       initialNLQState.queryHistory) :=
  ⟨by decide,
   nlq_failure_surfaced initialNLQState "compare columns" "Session expired"
     (by decide)⟩

/-- C4 counterexample: one failing natural-language-query call through
`handleSubmit` appends nothing to the query history - after one call the log
holds zero entries, not one. -/
theorem nlq_failed_call_not_logged :
    (handleSubmit initialNLQState "compare revenue"
        { rtype := some "error",
          message := some "Failed to process natural language query." }).queryHistory.length
      = 0 ∧
    (0 : Nat) ≠ 1 :=
  ⟨by decide, by decide⟩

/-- C4 (amended): every AI-insight call on the role-analysis page, successful
or failed, appends exactly one entry to the insights log, in call order; the
`NaturalLanguageQuery` component instead records nothing for a failed call and
prepends each successful call's response to its history, keeping at most the
five most recent. -/
theorem insight_log_one_entry_per_call (insights : List Insight)
    (calls : List (String × Nat × AIOutcome)) (st : NLQState) (q : String)
    (bad good : NLQResult) (hbad : bad.rtype = some "error")
    (hgood : good.rtype ≠ some "error") :
    runAIInsightCalls insights calls =
      insights ++ calls.map (fun c => aiInsightEntry c.1 c.2.1 c.2.2) ∧
    (runAIInsightCalls insights calls).length =
      insights.length + calls.length ∧
    (handleSubmit st q bad).queryHistory = st.queryHistory ∧
    (handleSubmit st q good).queryHistory =
      nlqResponseOf q good :: st.queryHistory.take 4 := by
  have hrun : ∀ (cs : List (String × Nat × AIOutcome)) (ins : List Insight),
      runAIInsightCalls ins cs =
        ins ++ cs.map (fun c => aiInsightEntry c.1 c.2.1 c.2.2) := by
    intro cs
    induction cs with
    | nil => intro ins; simp [runAIInsightCalls]
    | cons c rest ih =>
      intro ins
      have hstep : runAIInsightCalls ins (c :: rest) =
          runAIInsightCalls (ins ++ [aiInsightEntry c.1 c.2.1 c.2.2]) rest := by
        simp [runAIInsightCalls, List.foldl_cons, handleAIInsight_eq_append]
      rw [hstep, ih, List.map_cons, List.append_assoc, List.singleton_append]
  refine ⟨hrun calls insights, ?_, ?_, ?_⟩
  · rw [hrun calls insights]; simp
  · simp [handleSubmit, hbad]
  · rw [handleSubmit, if_neg hgood]

/-- C4 witness: one failed AI-insight call still logs exactly one entry, while
`handleSubmit` drops a failed query and prepends a successful one. -/
theorem insight_log_one_entry_per_call_witness :
    (NLQResult.rtype { rtype := some "error", message := none }
       = some "error") ∧
    (NLQResult.rtype { rtype := some "summary", message := none }
       ≠ some "error") ∧
    (runAIInsightCalls [] [("clean my data", 1, AIOutcome.failure "boom")] =
       [] ++ [("clean my data", 1, AIOutcome.failure "boom")].map
         (fun c => aiInsightEntry c.1 c.2.1 c.2.2) ∧
     (runAIInsightCalls []
         [("clean my data", 1, AIOutcome.failure "boom")]).length =
       List.length ([] : List Insight) + 1 ∧
     (handleSubmit initialNLQState "show outliers"
         { rtype := some "error", message := none }).queryHistory =
       initialNLQState.queryHistory ∧
     (handleSubmit initialNLQState "show outliers"
         { rtype := some "summary", message := none }).queryHistory =
       nlqResponseOf "show outliers" { rtype := some "summary", message := none }
         :: initialNLQState.queryHistory.take 4) :=
  ⟨by decide, by decide,
   insight_log_one_entry_per_call []
     [("clean my data", 1, AIOutcome.failure "boom")] initialNLQState
     "show outliers" { rtype := some "error", message := none }
     { rtype := some "summary", message := none } (by decide) (by decide)⟩
